import Mathlib

/-!
Shallow embedding of the settlement and concurrency-control engine of the
radix-spin chat bot (src/bot_fixed.py and src/radix_integration.py).
Monetary amounts are modelled as rationals; the Python floats involved in the
claims take exactly representable values at every input considered.
-/

/-- Constant MIN_SPIN_AMOUNT from bot_fixed.py line 85: minimum amount of XRD to spin. -/
def MIN_SPIN_AMOUNT : ℚ := 1

/-- Constant MAX_SPIN_AMOUNT from bot_fixed.py line 86: maximum amount of XRD to spin
(the global ceiling of the spec). -/
def MAX_SPIN_AMOUNT : ℚ := 1000

/-- Constant MAX_WIN_PERCENTAGE from bot_fixed.py line 84 (environment default 5):
the max-loss percentage of the house balance. -/
def MAX_WIN_PERCENTAGE : ℚ := 5

/-- Game variants: standard slot spin, sevens-only spin, die roll. -/
inductive Variant where
  | standard : Variant
  | sevens : Variant
  | die : Variant
deriving DecidableEq

/-- Payout multiplier of each variant, from bot_fixed.py lines 363 (12.0, 48.0, 5.0),
589 (amount * 12.0), 1177 (amount * 48.0), 1976 (amount * 5.0). -/
def Variant.multiplier : Variant → ℚ
  | .standard => 12
  | .sevens => 48
  | .die => 5

/-- Embedding of calculate_max_bet (bot_fixed.py lines 360-373): maximum allowed bet
from the game (house) balance and the spin type flags. -/
def calculate_max_bet (game_balance : ℚ) (is_seven_spin : Bool) (is_die : Bool) : ℚ :=
  let multiplier : ℚ := if is_seven_spin then 48 else if is_die then 5 else 12
  let max_win : ℚ := max 0 (game_balance * (MAX_WIN_PERCENTAGE / 100))
  let max_bet : ℚ := min MAX_SPIN_AMOUNT (max_win / multiplier)
  if is_seven_spin then min max_bet (MAX_SPIN_AMOUNT / 4) else max_bet

/-- The spec name computeMaxBet: calculate_max_bet with the flag encoding of each variant
(compare the call sites at bot_fixed.py lines 380, 1080, 1890). -/
def computeMaxBet (houseBalance : ℚ) : Variant → ℚ
  | .standard => calculate_max_bet houseBalance false false
  | .sevens => calculate_max_bet houseBalance true false
  | .die => calculate_max_bet houseBalance false true

/-- A spin-amount request: the literal "max" or a numeric amount
(bot_fixed.py get_spin_amount, argument arg). -/
inductive SpinRequest where
  | maxReq : SpinRequest
  | numeric : ℚ → SpinRequest

/-- Embedding of the amount-resolution logic of get_spin_amount
(bot_fixed.py lines 375-442), as a function of the request, the live user balance
and the already computed max_bet. none models the rejection replies (return None). -/
def get_spin_amount (req : SpinRequest) (user_balance : ℚ) (max_bet : ℚ) : Option ℚ :=
  match req with
  | .maxReq =>
    let user_max_bet : ℚ := max 0 (user_balance - 1/2)
    let amount : ℚ := min max_bet user_max_bet
    if amount < MIN_SPIN_AMOUNT then none else some amount
  | .numeric amount =>
    if amount < MIN_SPIN_AMOUNT then none
    else if amount > max_bet then some max_bet
    else some amount

/-- Per-win accumulation of total_winnings (bot_fixed.py lines 584-589): each winning
outcome adds amount times the variant multiplier. -/
def total_winnings (amount : ℚ) (multiplier : ℚ) : List Bool → ℚ
  | [] => 0
  | w :: rest => (if w then amount * multiplier else 0) + total_winnings amount multiplier rest

/-- Result record of the settlement calculator (spec section 4.4). -/
structure SettleResult where
  grossWinnings : ℚ
  totalCost : ℚ
  netResult : ℚ
deriving DecidableEq

/-- Embedding of the settlement computation of process_multiple_spins
(bot_fixed.py lines 584-593, identically at 1172-1181 and 1971-1980):
gross winnings from the win/lose outcomes, total cost, net result. -/
def settle (v : Variant) (amount : ℚ) (outcomes : List Bool) : SettleResult :=
  let tw : ℚ := total_winnings amount v.multiplier outcomes
  let tc : ℚ := amount * outcomes.length
  ⟨tw, tc, tw - tc⟩

/-- Transaction statuses returned by the Radix gateway
(radix_integration.py check_transaction_status). -/
inductive TxStatus where
  | CommittedSuccess : TxStatus
  | CommittedFailure : TxStatus
  | Rejected : TxStatus
  | Pending : TxStatus
  | Unknown : TxStatus
deriving DecidableEq

/-- Statuses on which check_transaction_status returns immediately
(radix_integration.py line 220). -/
def isFinal : TxStatus → Bool
  | .CommittedSuccess => true
  | .CommittedFailure => true
  | .Rejected => true
  | .Pending => false
  | .Unknown => false

/-- Bounded polling loop of check_transaction_status (radix_integration.py lines 212-228):
fuel counts remaining attempts, i is the poll index; poll gives the status the gateway
reports on each attempt. -/
def check_status_go (poll : Nat → TxStatus) : Nat → Nat → TxStatus
  | 0, _ => .Unknown
  | fuel + 1, i => if isFinal (poll i) then poll i else check_status_go poll fuel (i + 1)

/-- Embedding of check_transaction_status (radix_integration.py lines 203-231): poll up to
10 times; if no final status is seen, return Unknown (timed out waiting for confirmation). -/
def check_transaction_status (poll : Nat → TxStatus) : TxStatus :=
  check_status_go poll 10 0

/-- Value returned by submit_transaction_with_manifest (radix_integration.py lines 233-317):
either a dict with an error key (exception or configuration error), or the dict
with transaction_id, status and error_message built at lines 306-310. -/
inductive SubmitResult where
  | err : String → SubmitResult
  | ok : String → TxStatus → String → SubmitResult
deriving DecidableEq

/-- Observable outcome of the tail of process_multiple_spins (bot_fixed.py lines 595-675):
whether the user is shown the Transaction-failed message, the change applied to the
total_winnings_paid counter of game_stats, and the final value of the ongoing_spins flag. -/
structure SpinSettlement where
  reported_failed : Bool
  counter_delta : ℚ
  busy : Bool
deriving DecidableEq

/-- Embedding of the settlement tail of process_multiple_spins (bot_fixed.py lines 595-675,
identically at 1183-1261 and 1982-2060): if net_result is nonzero the manifest is submitted
and only the presence of an error key is inspected (line 619) — the status field is not
consulted; then, whenever net_result > 0 and no error key was present, the house counter
is increased by net_result - 0.5 (lines 626-633); the ongoing_spins flag is cleared on the
error path (line 623) and in the finally block (line 675). -/
def process_spin_settlement (net_result : ℚ) (ledger : SubmitResult) : SpinSettlement :=
  if net_result ≠ 0 then
    match ledger with
    | .err _ => ⟨true, 0, false⟩
    | .ok _ _ _ => ⟨false, if net_result > 0 then net_result - 1/2 else 0, false⟩
  else ⟨false, if net_result > 0 then net_result - 1/2 else 0, false⟩

/-- A single value-transfer instruction: the semantic content of the manifests built by
settle_spin_manifest (radix_integration.py lines 586-652): withdraw amount from fromAddr,
deposit it to toAddr. -/
structure Transfer where
  fromAddr : String
  toAddr : String
  amount : ℚ
deriving DecidableEq

/-- Embedding of settle_spin_manifest (radix_integration.py lines 586-652): positive net
result withdraws net_result from the game account into the player account; otherwise the
player account pays abs net_result to the game account. -/
def settle_spin_manifest (game_address player_address : String) (net_result : ℚ) : Transfer :=
  if net_result > 0 then ⟨game_address, player_address, net_result⟩
  else ⟨player_address, game_address, |net_result|⟩

/-- A submitted settlement: the transfer plus the address whose credentials sign it. -/
structure Submission where
  transfer : Transfer
  signer : String
deriving DecidableEq

/-- Embedding of the submission decision of process_multiple_spins (bot_fixed.py
lines 595-617): nothing is submitted when net_result = 0; otherwise the
settle_spin_manifest transfer is submitted, signed by the game account when the user won
and by the user account when the user lost. -/
def settlement_submission (game_address player_address : String) (net_result : ℚ) :
    Option Submission :=
  if net_result ≠ 0 then
    some ⟨settle_spin_manifest game_address player_address net_result,
          if net_result > 0 then game_address else player_address⟩
  else none

/-- Embedding of the ongoing_spins session guard acquisition (bot_fixed.py lines 455-460
and 488): the state maps a user handle to its busy flag (dict get, absent meaning false);
if the handle is busy the request is rejected with no state change, otherwise the flag is
set. Returns the success bit and the new state. -/
def tryAcquire (s : Nat → Bool) (u : Nat) : Bool × (Nat → Bool) :=
  if s u then (false, s)
  else (true, fun v => if v = u then true else s v)

/-- Embedding of guard release, ongoing_spins user_id set to False (bot_fixed.py
line 675 among others). -/
def release (s : Nat → Bool) (u : Nat) : Nat → Bool :=
  fun v => if v = u then false else s v

/-- Fields of withdraw_tokens_manifest that the claims mention
(radix_integration.py lines 442-475): the locked fee and the amount the manifest
withdraws from the player account, Decimal(amount - 1.000001). -/
structure WithdrawManifest where
  lock_fee : ℚ
  withdraw_amount : ℚ
deriving DecidableEq

/-- Embedding of withdraw_tokens_manifest (radix_integration.py lines 442-475). -/
def withdraw_tokens_manifest (amount : ℚ) : WithdrawManifest :=
  ⟨1, amount - 1000001/1000000⟩

/-- Observable events of the withdraw flow (bot_fixed.py lines 1263-1395), in order:
the live balance query (a ledger call), the transaction submission carrying the manifest
withdraw amount, the append of a transactions row, a rejection reply, the success reply
with reported amount and fee, and the failure reply. -/
inductive WithdrawEvent where
  | balanceQuery : WithdrawEvent
  | submitTransfer : ℚ → WithdrawEvent
  | recordTx : ℚ → WithdrawEvent
  | reject : WithdrawEvent
  | reportSuccess : ℚ → ℚ → WithdrawEvent
  | reportFailed : WithdrawEvent
deriving DecidableEq

/-- Tail of the withdraw flow after the balance query (bot_fixed.py lines 1322-1390):
default the amount to the balance happens in the caller; reject when amount > balance
(line 1326) or amount <= 1.01 (line 1333); otherwise submit the manifest transaction;
on an error key report failure; on CommittedSuccess record amount - 1.000001 in the
transactions table (line 1368-1372) and report that amount with a 1.000001 fee
(lines 1377-1383); any other status reports failure. SIMULATION_MODE is False
(radix_integration.py line 20). -/
def withdraw_after_balance (amount balance : ℚ) (ledger : SubmitResult) :
    List WithdrawEvent :=
  if amount > balance then [.reject]
  else if amount ≤ 101/100 then [.reject]
  else
    WithdrawEvent.submitTransfer (withdraw_tokens_manifest amount).withdraw_amount ::
      match ledger with
      | .err _ => [.reportFailed]
      | .ok _ st _ =>
        if st = .CommittedSuccess then
          [.recordTx (amount - 1000001/1000000),
           .reportSuccess (amount - 1000001/1000000) (1000001/1000000)]
        else [.reportFailed]

/-- Embedding of the withdraw flow (bot_fixed.py lines 1263-1395) as its event trace.
A requested amount ≤ 0 is rejected before the database and balance are consulted
(lines 1295-1298); otherwise the live balance is fetched (line 1320), a missing amount
defaults to the whole balance (line 1324), and the tail runs. -/
def withdraw_flow (requested : Option ℚ) (balance : ℚ) (ledger : SubmitResult) :
    List WithdrawEvent :=
  match requested with
  | some a =>
    if a ≤ 0 then [.reject]
    else WithdrawEvent.balanceQuery :: withdraw_after_balance a balance ledger
  | none => WithdrawEvent.balanceQuery :: withdraw_after_balance balance balance ledger

/-- True iff the trace reaches a rejection without any prior ledger call
(balance query or transaction submission). -/
def rejectedBeforeAnyLedgerCall : List WithdrawEvent → Bool
  | [] => false
  | .reject :: _ => true
  | .balanceQuery :: _ => false
  | .submitTransfer _ :: _ => false
  | _ :: rest => rejectedBeforeAnyLedgerCall rest

/-- The per-win accumulation equals the sum over the outcome list of the per-outcome
payout. -/
lemma total_winnings_eq_sum (a m : ℚ) (os : List Bool) :
    total_winnings a m os = (os.map (fun w => if w then a * m else 0)).sum := by
  induction os with
  | nil => simp [total_winnings]
  | cons w rest ih => simp [total_winnings, ih]

/-- Closed form of computeMaxBet for the standard variant. -/
lemma computeMaxBet_standard_eq (h : ℚ) :
    computeMaxBet h .standard = min 1000 (max 0 (h * (5 / 100)) / 12) := rfl

/-- Closed form of computeMaxBet for the sevens-only variant. -/
lemma computeMaxBet_sevens_eq (h : ℚ) :
    computeMaxBet h .sevens = min (min 1000 (max 0 (h * (5 / 100)) / 48)) (1000 / 4) := rfl

/-- Closed form of computeMaxBet for the die variant. -/
lemma computeMaxBet_die_eq (h : ℚ) :
    computeMaxBet h .die = min 1000 (max 0 (h * (5 / 100)) / 5) := rfl

/-- C3: for every play batch with per-play amount a, play count in 1..3 and a list of
win/lose outcomes, the settlement computation yields grossWinnings equal to the sum of
a times the variant multiplier over the winning outcomes, totalCost equal to a times the
play count, and netResult equal to grossWinnings minus totalCost, exactly; in particular
a = 10, three standard-variant plays with outcomes win, lose, lose give grossWinnings 120,
totalCost 30 and netResult 90. -/
theorem C3_settlement_calculator (v : Variant) (a : ℚ) (outcomes : List Bool)
    (hN : 1 ≤ outcomes.length ∧ outcomes.length ≤ 3) :
    (settle v a outcomes).grossWinnings
        = (outcomes.map (fun w => if w then a * v.multiplier else 0)).sum ∧
    (settle v a outcomes).totalCost = a * outcomes.length ∧
    (settle v a outcomes).netResult
        = (settle v a outcomes).grossWinnings - (settle v a outcomes).totalCost ∧
    settle .standard 10 [true, false, false] = ⟨120, 30, 90⟩ := by
  refine ⟨total_winnings_eq_sum a v.multiplier outcomes, rfl, rfl, ?_⟩
  norm_num [settle, total_winnings, Variant.multiplier]

/-- Witness for C3 at the scenario input: three outcomes, win-lose-lose, amount 10. -/
theorem C3_witness :
    (1 ≤ ([true, false, false] : List Bool).length
      ∧ ([true, false, false] : List Bool).length ≤ 3)
    ∧ settle .standard 10 [true, false, false] = ⟨120, 30, 90⟩ :=
  ⟨⟨by simp, by simp⟩,
   (C3_settlement_calculator .standard 10 [true, false, false] ⟨by simp, by simp⟩).2.2.2⟩

/-- C5: for every house balance and every variant, computeMaxBet returns
min of the global ceiling and max 0 (balance times maxLossPercent over 100) divided by the
variant multiplier (12 standard, 48 sevens-only, 5 die), the sevens-only result being
additionally capped at a quarter of the global ceiling; in particular house balance 1000
with maxLossPercent 5 under the standard variant gives maxWin 50 and
maxBet = min 1000 (50 / 12) = 25 / 6. -/
theorem C5_max_bet_formula :
    (∀ h : ℚ, computeMaxBet h .standard
        = min MAX_SPIN_AMOUNT (max 0 (h * (MAX_WIN_PERCENTAGE / 100)) / 12)) ∧
    (∀ h : ℚ, computeMaxBet h .sevens
        = min (min MAX_SPIN_AMOUNT (max 0 (h * (MAX_WIN_PERCENTAGE / 100)) / 48))
            (MAX_SPIN_AMOUNT / 4)) ∧
    (∀ h : ℚ, computeMaxBet h .die
        = min MAX_SPIN_AMOUNT (max 0 (h * (MAX_WIN_PERCENTAGE / 100)) / 5)) ∧
    max 0 ((1000 : ℚ) * (MAX_WIN_PERCENTAGE / 100)) = 50 ∧
    computeMaxBet 1000 .standard = min 1000 (50 / 12) ∧
    computeMaxBet 1000 .standard = 25 / 6 := by
  refine ⟨fun h => rfl, fun h => rfl, fun h => rfl, ?_, ?_, ?_⟩ <;>
    norm_num [computeMaxBet, calculate_max_bet, MAX_WIN_PERCENTAGE, MAX_SPIN_AMOUNT]

/-- C8: for every variant, computeMaxBet is monotonically non-decreasing in the house
balance, and its result never exceeds the global ceiling MAX_SPIN_AMOUNT. -/
theorem C8_max_bet_monotone_bounded (v : Variant) (h1 h2 : ℚ) :
    (h1 ≤ h2 → computeMaxBet h1 v ≤ computeMaxBet h2 v) ∧
    computeMaxBet h1 v ≤ MAX_SPIN_AMOUNT := by
  have hM : MAX_SPIN_AMOUNT = 1000 := rfl
  cases v
  case standard =>
    refine ⟨fun hle => ?_, ?_⟩
    · rw [computeMaxBet_standard_eq, computeMaxBet_standard_eq]
      gcongr
    · rw [computeMaxBet_standard_eq, hM]
      exact min_le_left _ _
  case sevens =>
    refine ⟨fun hle => ?_, ?_⟩
    · rw [computeMaxBet_sevens_eq, computeMaxBet_sevens_eq]
      gcongr
    · rw [computeMaxBet_sevens_eq, hM]
      exact le_trans (min_le_left _ _) (min_le_left _ _)
  case die =>
    refine ⟨fun hle => ?_, ?_⟩
    · rw [computeMaxBet_die_eq, computeMaxBet_die_eq]
      gcongr
    · rw [computeMaxBet_die_eq, hM]
      exact min_le_left _ _

/-- Witness for C8 at house balances 1 and 2, standard variant. -/
theorem C8_witness :
    computeMaxBet 1 .standard ≤ computeMaxBet 2 .standard ∧
    computeMaxBet 1 .standard ≤ MAX_SPIN_AMOUNT :=
  ⟨(C8_max_bet_monotone_bounded .standard 1 2).1 (by norm_num),
   (C8_max_bet_monotone_bounded .standard 1 2).2⟩

/-- C6: resolving a requested spin amount against a nonnegative max bet behaves as:
for the literal max request the resolved amount is min maxBet (balance minus the 0.5 fee)
and the request is rejected exactly when that value is below the minimum stake; a numeric
request is rejected when below the minimum stake and silently clamped down to maxBet when
above it, so a numeric request at or above the minimum stake is never rejected. -/
theorem C6_resolve_requested_amount (ub mb : ℚ) (hmb : 0 ≤ mb) :
    (get_spin_amount .maxReq ub mb =
        if min mb (ub - 1/2) < MIN_SPIN_AMOUNT then none else some (min mb (ub - 1/2))) ∧
    (∀ a : ℚ, get_spin_amount (.numeric a) ub mb =
        if a < MIN_SPIN_AMOUNT then none else if a > mb then some mb else some a) ∧
    (∀ a : ℚ, MIN_SPIN_AMOUNT ≤ a → get_spin_amount (.numeric a) ub mb ≠ none) := by
  refine ⟨?_, fun a => rfl, fun a ha => ?_⟩
  · simp only [get_spin_amount]
    rcases le_or_lt 0 (ub - 1/2) with hub | hub
    · rw [max_eq_right hub]
    · rw [max_eq_left hub.le, min_eq_right hmb, min_eq_right (hub.le.trans hmb)]
      rw [if_pos (by norm_num [MIN_SPIN_AMOUNT]),
          if_pos (lt_of_lt_of_le hub (by norm_num [MIN_SPIN_AMOUNT]))]
  · simp only [get_spin_amount, if_neg (not_lt.mpr ha)]
    split <;> simp

/-- Witness for C6 at user balance 10 and max bet 4. -/
theorem C6_witness :
    get_spin_amount .maxReq 10 4 =
      if min (4 : ℚ) (10 - 1/2) < MIN_SPIN_AMOUNT then none
      else some (min (4 : ℚ) (10 - 1/2)) :=
  (C6_resolve_requested_amount 10 4 (by norm_num)).1

/-- C4: settling a play batch submits no ledger operation when the net result is zero;
when the net result is positive it submits exactly one transfer of the net result from
the game (house) account to the player, signed with the game credentials; when negative,
exactly one transfer of the absolute net result from the player to the game account,
signed with the player credentials. -/
theorem C4_settlement_submission_cases (g p : String) (n : ℚ) :
    (n = 0 → settlement_submission g p n = none) ∧
    (0 < n → settlement_submission g p n = some ⟨⟨g, p, n⟩, g⟩) ∧
    (n < 0 → settlement_submission g p n = some ⟨⟨p, g, |n|⟩, p⟩) := by
  refine ⟨fun h => ?_, fun h => ?_, fun h => ?_⟩
  · simp [settlement_submission, h]
  · simp [settlement_submission, settle_spin_manifest, h, h.ne']
  · simp [settlement_submission, settle_spin_manifest, h.ne, h.asymm]

/-- Witness for C4 at net results 0, 90 and minus 15. -/
theorem C4_witness :
    settlement_submission "g" "p" 0 = none ∧
    settlement_submission "g" "p" 90 = some ⟨⟨"g", "p", 90⟩, "g"⟩ ∧
    settlement_submission "g" "p" (-15) = some ⟨⟨"p", "g", |(-15 : ℚ)|⟩, "p"⟩ :=
  ⟨(C4_settlement_submission_cases "g" "p" 0).1 rfl,
   (C4_settlement_submission_cases "g" "p" 90).2.1 (by norm_num),
   (C4_settlement_submission_cases "g" "p" (-15)).2.2 (by norm_num)⟩

/-- C7: acquiring the session guard for a handle already marked busy fails with no state
change; when the handle is free, of two successive tryAcquire calls for the same handle
exactly the first succeeds; and releasing twice equals releasing once, so the second
release is a no-op. -/
theorem C7_session_guard (s : Nat → Bool) (u : Nat) :
    (s u = true → tryAcquire s u = (false, s)) ∧
    (s u = false →
      (tryAcquire s u).1 = true ∧ (tryAcquire (tryAcquire s u).2 u).1 = false) ∧
    release (release s u) u = release s u := by
  refine ⟨fun h => ?_, fun h => ?_, ?_⟩
  · simp [tryAcquire, h]
  · simp [tryAcquire, h]
  · funext v
    by_cases hv : v = u <;> simp [release, hv]

/-- Witness for C7 on the all-busy state and on the all-free state at handle 0. -/
theorem C7_witness :
    tryAcquire (fun _ => true) 0 = (false, fun _ => true) ∧
    ((tryAcquire (fun _ => false) 0).1 = true ∧
      (tryAcquire (tryAcquire (fun _ => false) 0).2 0).1 = false) :=
  ⟨(C7_session_guard (fun _ => true) 0).1 rfl,
   (C7_session_guard (fun _ => false) 0).2.1 rfl⟩

/-- C2: when the settlement submission comes back CommittedSuccess, the house
total_winnings_paid counter changes by exactly netResult minus the fixed 0.5 fee when the
net result is positive, and does not change when the net result is zero or negative. -/
theorem C2_counter_update_on_success (net : ℚ) (tid em : String) :
    ((0 : ℚ) < net →
      (process_spin_settlement net (.ok tid .CommittedSuccess em)).counter_delta
        = net - 1/2) ∧
    (net ≤ 0 →
      (process_spin_settlement net (.ok tid .CommittedSuccess em)).counter_delta = 0) := by
  refine ⟨fun h => ?_, fun h => ?_⟩
  · simp [process_spin_settlement, h, h.ne']
  · by_cases h0 : net = 0
    · simp [process_spin_settlement, h0]
    · simp [process_spin_settlement, h0, not_lt.mpr h]

/-- Witness for C2 at net results 90 and minus 15. -/
theorem C2_witness :
    (process_spin_settlement 90 (.ok "t" .CommittedSuccess "")).counter_delta = 90 - 1/2 ∧
    (process_spin_settlement (-15) (.ok "t" .CommittedSuccess "")).counter_delta = 0 :=
  ⟨(C2_counter_update_on_success 90 "t" "").1 (by norm_num),
   (C2_counter_update_on_success (-15) "t" "").2 (by norm_num)⟩

/-- C1: the code evaluated at the failing input. check_transaction_status returns Unknown
after its ten polls are exhausted, yet process_multiple_spins, which inspects only the
error key of the submission result, processes a net result of 90 carrying status Unknown
as a success: the failure message is not shown and the house counter is increased by
89.5, contradicting the claim that an Unknown status is reported as failed with the
counter unchanged. The busy flag is released as the claim states. -/
theorem C1_unknown_status_processed_as_success :
    check_transaction_status (fun _ => TxStatus.Pending) = TxStatus.Unknown ∧
    process_spin_settlement 90
        (SubmitResult.ok "txid" TxStatus.Unknown
          "Timed out waiting for transaction confirmation")
      = ⟨false, 179/2, false⟩ := by
  constructor
  · norm_num [check_transaction_status, check_status_go, isFinal]
  · norm_num [process_spin_settlement]

/-- C9 counterexample: a requested withdrawal of 1 XRD against balance 100 is rejected,
but its trace starts with the live balance query, a ledger call, so the rejection does
not precede every ledger call as the claim states. -/
theorem C9_counterexample :
    (1 : ℚ) ≤ 101/100 ∧
    withdraw_flow (some 1) 100 (SubmitResult.err "e") = [.balanceQuery, .reject] ∧
    rejectedBeforeAnyLedgerCall (withdraw_flow (some 1) 100 (SubmitResult.err "e"))
      = false := by
  refine ⟨by norm_num, ?_, ?_⟩ <;>
    norm_num [withdraw_flow, withdraw_after_balance, rejectedBeforeAnyLedgerCall]

/-- C9 amended: every withdrawal request with amount at most 1.01 is rejected and no
transaction submission occurs; the rejection happens before any transaction is submitted,
though a balance query precedes it whenever the amount is positive. -/
theorem C9_reject_before_submission (a b : ℚ) (ha : a ≤ 101/100)
    (ledger : SubmitResult) :
    WithdrawEvent.reject ∈ withdraw_flow (some a) b ledger ∧
    ∀ q : ℚ, WithdrawEvent.submitTransfer q ∉ withdraw_flow (some a) b ledger := by
  by_cases h0 : a ≤ 0
  · simp [withdraw_flow, h0]
  · have htail : withdraw_after_balance a b ledger = [.reject] := by
      unfold withdraw_after_balance
      by_cases hb : a > b
      · rw [if_pos hb]
      · rw [if_neg hb, if_pos ha]
    simp [withdraw_flow, h0, htail]

/-- Witness for the amended C9 at amount 1 and balance 100. -/
theorem C9_witness :
    WithdrawEvent.reject ∈ withdraw_flow (some 1) 100 (SubmitResult.err "f") ∧
    ∀ q : ℚ, WithdrawEvent.submitTransfer q ∉ withdraw_flow (some 1) 100
      (SubmitResult.err "f") :=
  C9_reject_before_submission 1 100 (by norm_num) (SubmitResult.err "f")

/-- C10: every successful withdrawal of a requested amount a with a above 1.01 and at most
the balance submits a transfer whose manifest withdraws a minus 1.000001 from the user
account, appends a transactions row storing a minus 1.000001 rather than a, and reports a
withdrawal of a minus 1.000001 with a 1.000001 fee. -/
theorem C10_withdraw_success_amounts (a b : ℚ) (h1 : 101/100 < a) (h2 : a ≤ b)
    (tid em : String) :
    (withdraw_tokens_manifest a).withdraw_amount = a - 1000001/1000000 ∧
    withdraw_flow (some a) b (SubmitResult.ok tid .CommittedSuccess em)
      = [.balanceQuery,
         .submitTransfer (a - 1000001/1000000),
         .recordTx (a - 1000001/1000000),
         .reportSuccess (a - 1000001/1000000) (1000001/1000000)] := by
  have h0 : ¬ a ≤ 0 := by linarith
  refine ⟨rfl, ?_⟩
  simp [withdraw_flow, h0, withdraw_after_balance, not_lt.mpr h2, not_le.mpr h1,
    withdraw_tokens_manifest]

/-- Witness for C10 at requested amount 5 and balance 100. -/
theorem C10_witness :
    (withdraw_tokens_manifest 5).withdraw_amount = 5 - 1000001/1000000 ∧
    withdraw_flow (some 5) 100 (SubmitResult.ok "t2" .CommittedSuccess "")
      = [.balanceQuery,
         .submitTransfer (5 - 1000001/1000000),
         .recordTx (5 - 1000001/1000000),
         .reportSuccess (5 - 1000001/1000000) (1000001/1000000)] :=
  C10_withdraw_success_amounts 5 100 (by norm_num) (by norm_num) "t2" ""
